import Mathlib

/-!
Verification development for the vsc-mcp bridge core: a shallow embedding of
the proxy's discovery client (`discovery.ts`), environment resolver, reconnect
engine (`remoteClient.ts`), protocol proxy tool-call handler
(`proxyServer.ts`), process entry point (`stdioMain.ts`), and the extension's
SSE host-side session registry (`sse-http-server.ts`).

Asynchronous I/O is embedded by explicit oracles: the outcome of the i-th
fetch / connect attempt is a function of i, timers are recorded as lists of
sleep durations (milliseconds), and unbounded `while` loops take a fuel
parameter, returning `none` when the fuel is exhausted before the loop exits.
Event callbacks attached to a stream (the `close` handlers of an SSE
response) are modelled as running when that stream is closed.
-/

namespace VscMcp

/-! ## Discovery module (`packages/proxy/src/discovery.ts`) -/

/-- A JavaScript value found in an error object's `code` property: either a
string primitive (compared with `===` against the three codes) or any
non-string value. -/
inductive JsCode where
  | str (s : String)
  | nonString
deriving DecidableEq

/-- The argument of `isNoServerError`: `null`, `undefined`, or an object
whose `code` property is absent (`none`) or holds a value. Optional chaining
`(err as \x7bcode?: unknown\x7d)?.code` yields `undefined` on `null`/`undefined`
and on objects without the property. -/
inductive JsErr where
  | vNull
  | vUndefined
  | vObj (code : Option JsCode)
deriving DecidableEq

/-- `isNoServerError` from `discovery.ts`: the `code` property is compared
with `===` against "ENOTFOUND", "ECONNREFUSED", "ECONNRESET". -/
def isNoServerError : JsErr → Bool
  | .vObj (some (.str s)) =>
      s == "ENOTFOUND" || s == "ECONNREFUSED" || s == "ECONNRESET"
  | _ => false

/-! ## Environment resolver (`EnvSchema` / `readEnv`)

The zod schema lives in the proxy sources; its keys as consumed by
`discovery.ts` and `stdioMain.ts` (and asserted by `env.test.ts`) are
`DISCOVERY_HOST`, `DISCOVERY_PORT`, `DISCOVERY_PATH`, `PROXY_RETRY_LIMIT`,
`PROXY_LOG_LEVEL`. Shape: string min-1 default "localhost"; coerced int in
[1,65535] default 60100; string starting with "/" default "/sse"; coerced
int >= 0 default 5; enum default "info". `readEnv` turns the first zod issue
into an error naming the field path, and otherwise returns the whole typed
config, so failure is atomic. -/

/-- The four log levels of the proxy logger. -/
inductive LogLevel where
  | error
  | warn
  | info
  | debug
deriving DecidableEq

/-- Parse of the `PROXY_LOG_LEVEL` enum. -/
def parseLogLevel : String → Option LogLevel
  | "error" => some .error
  | "warn" => some .warn
  | "info" => some .info
  | "debug" => some .debug
  | _ => none

/-- A configuration error: the offending field path and the issue message,
composed in the source into the single string
"ENV invalid at <fieldPath>: <message>". -/
structure ConfigErr where
  fieldPath : String
  message : String
deriving DecidableEq

/-- The raw environment snapshot: each known key either absent or a string. -/
structure RawEnv where
  DISCOVERY_HOST : Option String := none
  DISCOVERY_PORT : Option String := none
  DISCOVERY_PATH : Option String := none
  PROXY_RETRY_LIMIT : Option String := none
  PROXY_LOG_LEVEL : Option String := none

/-- The validated immutable configuration (`Env` in the source). -/
structure Env where
  DISCOVERY_HOST : String
  DISCOVERY_PORT : Int
  DISCOVERY_PATH : String
  PROXY_RETRY_LIMIT : Nat
  PROXY_LOG_LEVEL : LogLevel
deriving DecidableEq

/-! ### JS numbers

`z.coerce.number()` applies JS `Number(input)`. A numeric string denotes an
exact decimal value, modelled below as `mantissa * 10^shift`; hex, octal and
binary literals are integers, and `Number` can also yield NaN or a signed
Infinity. JS numbers are IEEE doubles; this model computes with the exact
decimal instead, which agrees with the double on every comparison and
integrality check performed by the schemas here except beyond the precision
of a double (17 significant digits, or overflow to Infinity), where both
sides still fail the same schema field. -/

/-- An exact decimal value `mantissa * 10^shift`. -/
structure DecNum where
  mantissa : Int
  shift : Int
deriving DecidableEq

/-- `10^k` as an integer. -/
def pow10 (k : Nat) : Int := 10 ^ k

/-- Whether the decimal value is an integer (`Number.isInteger`). -/
def DecNum.isIntB (v : DecNum) : Bool :=
  if 0 ≤ v.shift then true
  else v.mantissa % pow10 (-v.shift).toNat == 0

/-- The integer value of an integral decimal. -/
def DecNum.toIntVal (v : DecNum) : Int :=
  if 0 ≤ v.shift then v.mantissa * pow10 v.shift.toNat
  else v.mantissa / pow10 (-v.shift).toNat

/-- `0 < value`: the sign of the value is the sign of the mantissa. -/
def DecNum.posB (v : DecNum) : Bool :=
  decide (0 < v.mantissa)

/-- `value <= n`, by cross-multiplying with the positive power of ten. -/
def DecNum.leIntB (v : DecNum) (n : Int) : Bool :=
  if 0 ≤ v.shift then decide (v.mantissa * pow10 v.shift.toNat ≤ n)
  else decide (v.mantissa ≤ n * pow10 (-v.shift).toNat)

/-- `n <= value`, by cross-multiplying with the positive power of ten. -/
def DecNum.geIntB (v : DecNum) (n : Int) : Bool :=
  if 0 ≤ v.shift then decide (n ≤ v.mantissa * pow10 v.shift.toNat)
  else decide (n * pow10 (-v.shift).toNat ≤ v.mantissa)

/-- The result of JS `Number(string)`: NaN, a signed Infinity, or a finite
value. -/
inductive JsNumber where
  | nan
  | inf (neg : Bool)
  | num (v : DecNum)
deriving DecidableEq

/-- The JS WhiteSpace and LineTerminator characters trimmed by `Number`. -/
def isJsSpace (c : Char) : Bool :=
  c == ' ' || c == '\t' || c == '\n' || c == '\r' ||
  c.toNat == 11 || c.toNat == 12 || c.toNat == 160 ||
  c.toNat == 8232 || c.toNat == 8233 || c.toNat == 65279

/-- Drop leading JS whitespace. -/
def dropJsSpace : List Char → List Char
  | [] => []
  | c :: cs => if isJsSpace c then dropJsSpace cs else c :: cs

/-- Trim JS whitespace from both ends. -/
def trimJs (cs : List Char) : List Char :=
  (dropJsSpace (dropJsSpace cs).reverse).reverse

/-- Split the longest digit prefix from the rest. -/
def splitDigits : List Char → List Char × List Char
  | [] => ([], [])
  | c :: cs =>
      if c.isDigit then
        let p := splitDigits cs
        (c :: p.1, p.2)
      else ([], c :: cs)

/-- Decimal digits to a natural number. -/
def natOfDigits (ds : List Char) : Nat :=
  ds.foldl (fun a c => a * 10 + (c.toNat - 48)) 0

/-- The exponent part of a decimal literal: empty, or e/E with an optional
sign and at least one digit, consuming the whole rest. -/
def parseExpPart : List Char → Option Int
  | [] => some 0
  | c :: rest =>
      if c == 'e' || c == 'E' then
        match rest with
        | '+' :: ds =>
            if ds ≠ [] ∧ ds.all Char.isDigit then some (natOfDigits ds : Int)
            else none
        | '-' :: ds =>
            if ds ≠ [] ∧ ds.all Char.isDigit then some (-(natOfDigits ds : Int))
            else none
        | ds =>
            if ds ≠ [] ∧ ds.all Char.isDigit then some (natOfDigits ds : Int)
            else none
      else none

/-- An unsigned decimal literal: digits with an optional fraction, or a
fraction alone, with an optional exponent, consuming the whole input. -/
def parseUnsignedDec (cs : List Char) : Option DecNum :=
  match splitDigits cs with
  | (intDs, rest) =>
      match rest with
      | '.' :: r2 =>
          match splitDigits r2 with
          | (fracDs, r3) =>
              if intDs = [] ∧ fracDs = [] then none
              else
                match parseExpPart r3 with
                | some e =>
                    some ⟨(natOfDigits (intDs ++ fracDs) : Int),
                          e - (fracDs.length : Int)⟩
                | none => none
      | _ =>
          if intDs = [] then none
          else
            match parseExpPart rest with
            | some e => some ⟨(natOfDigits intDs : Int), e⟩
            | none => none

/-- Hexadecimal digit test. -/
def isHexDigitB (c : Char) : Bool :=
  c.isDigit || ('a' ≤ c && c ≤ 'f') || ('A' ≤ c && c ≤ 'F')

/-- Hexadecimal digit value. -/
def hexDigitVal (c : Char) : Nat :=
  if c.isDigit then c.toNat - 48
  else if 'a' ≤ c then c.toNat - 87
  else c.toNat - 55

/-- Digits in a given base to a natural number. -/
def natOfBase (base : Nat) (val : Char → Nat) (ds : List Char) : Nat :=
  ds.foldl (fun a c => a * base + val c) 0

/-- A 0x/0o/0b integer literal (no sign allowed), consuming the whole
input. -/
def parseNonDecimal (cs : List Char) : Option DecNum :=
  match cs with
  | '0' :: x :: ds =>
      if x == 'x' || x == 'X' then
        if ds ≠ [] ∧ ds.all isHexDigitB then
          some ⟨(natOfBase 16 hexDigitVal ds : Int), 0⟩
        else none
      else if x == 'o' || x == 'O' then
        if ds ≠ [] ∧ ds.all (fun c => c.isDigit && c ≤ '7') then
          some ⟨(natOfBase 8 (fun c => c.toNat - 48) ds : Int), 0⟩
        else none
      else if x == 'b' || x == 'B' then
        if ds ≠ [] ∧ ds.all (fun c => c == '0' || c == '1') then
          some ⟨(natOfBase 2 (fun c => c.toNat - 48) ds : Int), 0⟩
        else none
      else none
  | _ => none

/-- JS `Number(string)`: trim whitespace; empty means 0; a hex/octal/binary
literal (no sign); else an optional sign followed by "Infinity" or an
unsigned decimal literal; anything else is NaN. -/
def jsNumberOfString (s : String) : JsNumber :=
  match trimJs s.data with
  | [] => .num ⟨0, 0⟩
  | cs =>
      match parseNonDecimal cs with
      | some v => .num v
      | none =>
          match cs with
          | '+' :: r =>
              if r = "Infinity".data then .inf false
              else
                match parseUnsignedDec r with
                | some v => .num v
                | none => .nan
          | '-' :: r =>
              if r = "Infinity".data then .inf true
              else
                match parseUnsignedDec r with
                | some v => .num ⟨-v.mantissa, v.shift⟩
                | none => .nan
          | r =>
              if r = "Infinity".data then .inf false
              else
                match parseUnsignedDec r with
                | some v => .num v
                | none => .nan

/-- Failure classifier for the port schema
`z.coerce.number().int().min(1).max(65535)`: the coerced value is NaN or
Infinity, not an integer, or an integer outside [1, 65535]. -/
def portViolationB (s : String) : Bool :=
  match jsNumberOfString s with
  | .nan => true
  | .inf _ => true
  | .num v =>
      !v.isIntB || decide (v.toIntVal < 1) || decide (65535 < v.toIntVal)

/-- Failure classifier for the retry schema
`z.coerce.number().int().min(0)`: the coerced value is NaN or Infinity, not
an integer, or a negative integer. -/
def retryViolationB (s : String) : Bool :=
  match jsNumberOfString s with
  | .nan => true
  | .inf _ => true
  | .num v => !v.isIntB || decide (v.toIntVal < 0)

/-- Whether the string starts with the "/" character
(`z.string().startsWith("/")`). -/
def startsWithSlash (s : String) : Bool :=
  match s.data with
  | '/' :: _ => true
  | _ => false

/-- `z.string().min(1).default("localhost")`. -/
def validateHost : Option String → Except ConfigErr String
  | none => .ok "localhost"
  | some s =>
      if 1 ≤ s.length then .ok s
      else .error ⟨"DISCOVERY_HOST", "String must contain at least 1 character"⟩

/-- `z.coerce.number().int().min(1).max(65535).default(60100)`: coerce with
JS `Number`, reject NaN, reject non-integers (including Infinity), then
check the range. -/
def validatePort : Option String → Except ConfigErr Int
  | none => .ok 60100
  | some s =>
      match jsNumberOfString s with
      | .nan => .error ⟨"DISCOVERY_PORT", "Expected number, received nan"⟩
      | .inf _ => .error ⟨"DISCOVERY_PORT", "Expected integer, received float"⟩
      | .num v =>
          if v.isIntB then
            if 1 ≤ v.toIntVal ∧ v.toIntVal ≤ 65535 then .ok v.toIntVal
            else .error ⟨"DISCOVERY_PORT", "Number out of range"⟩
          else .error ⟨"DISCOVERY_PORT", "Expected integer, received float"⟩

/-- `z.string().startsWith("/").default("/sse")`. -/
def validatePath : Option String → Except ConfigErr String
  | none => .ok "/sse"
  | some s =>
      if startsWithSlash s then .ok s
      else .error ⟨"DISCOVERY_PATH", "Invalid input: must start with /"⟩

/-- `z.coerce.number().int().min(0).default(5)`: coerce with JS `Number`,
reject NaN, reject non-integers (including Infinity), then check the
minimum. -/
def validateRetryLimit : Option String → Except ConfigErr Nat
  | none => .ok 5
  | some s =>
      match jsNumberOfString s with
      | .nan => .error ⟨"PROXY_RETRY_LIMIT", "Expected number, received nan"⟩
      | .inf _ =>
          .error ⟨"PROXY_RETRY_LIMIT", "Expected integer, received float"⟩
      | .num v =>
          if v.isIntB then
            if 0 ≤ v.toIntVal then .ok v.toIntVal.toNat
            else .error ⟨"PROXY_RETRY_LIMIT",
              "Number must be greater than or equal to 0"⟩
          else .error ⟨"PROXY_RETRY_LIMIT", "Expected integer, received float"⟩

/-- `z.enum(["error","warn","info","debug"]).default("info")`. -/
def validateLogLevel : Option String → Except ConfigErr LogLevel
  | none => .ok .info
  | some s =>
      match parseLogLevel s with
      | some lvl => .ok lvl
      | none => .error ⟨"PROXY_LOG_LEVEL", "Invalid enum value"⟩

/-- `readEnv`: parse the snapshot into a typed `Env` with defaults, failing
atomically with the first issue (no partial configuration escapes). -/
def readEnv (raw : RawEnv) : Except ConfigErr Env := do
  let host ← validateHost raw.DISCOVERY_HOST
  let port ← validatePort raw.DISCOVERY_PORT
  let path ← validatePath raw.DISCOVERY_PATH
  let retry ← validateRetryLimit raw.PROXY_RETRY_LIMIT
  let lvl ← validateLogLevel raw.PROXY_LOG_LEVEL
  return ⟨host, port, path, retry, lvl⟩

/-! ## Discovery polling (`resolveSsePortWithRetry`)

The source loops `while (SSE_PORT === undefined)`; each iteration fetches the
discovery URL. A 404 logs a warning; an ok (2xx) response with JSON body
whose `port` is a number with `port > 0 && port <= 65535` stores and returns
it; every other outcome (non-2xx status, malformed body, out-of-range port,
network error) is caught. Each unsuccessful iteration sleeps 5000 ms. The
i-th fetch outcome is supplied by an oracle. -/

/-- The outcome of one fetch of the discovery endpoint: a network-level
failure, or a response with a status and the numeric `port` field of the
parsed JSON body (when the field holds a JSON number, carried as its exact
decimal value — JSON numbers need not be integers). -/
inductive FetchOutcome where
  | netError (msg : String)
  | response (status : Nat) (portField : Option DecNum)
deriving DecidableEq

/-- The port accepted by one loop iteration, if any: requires an ok status
(200..299) and a numeric `port` with `port > 0 && port <= 65535` — the
source's check, which accepts any JS number in that window, integer or
not. -/
def goodPort : FetchOutcome → Option DecNum
  | .netError _ => none
  | .response status portField =>
      if 200 ≤ status ∧ status ≤ 299 then
        match portField with
        | some p => if p.posB && p.leIntB 65535 then some p else none
        | none => none
      else none

/-- Observable result of a `resolveSsePortWithRetry` run: the returned port,
the number of fetch calls issued, the sleeps performed (ms), and the final
shared `SSE_PORT` state (retrievable via `getSsePort`). -/
structure DiscoveryResult where
  port : DecNum
  calls : Nat
  sleepsMs : List Nat
  cached : Option DecNum
deriving DecidableEq

/-- The polling loop body: `k` is the index of the next fetch; each
unsuccessful iteration appends a 5000 ms sleep and retries. `none` means the
fuel ran out while the loop was still retrying. -/
def resolveAux (resp : Nat → FetchOutcome) : Nat → Nat → List Nat → Option DiscoveryResult
  | 0, _, _ => none
  | fuel + 1, k, sleeps =>
      match goodPort (resp k) with
      | some p => some ⟨p, k + 1, sleeps, some p⟩
      | none => resolveAux resp fuel (k + 1) (sleeps ++ [5000])

/-- `resolveSsePortWithRetry`: when the shared `SSE_PORT` is already set the
`while` guard fails immediately and the cached value is returned with no
fetch and no sleep; otherwise the loop polls until a good response. -/
def resolveSsePortWithRetry (cache : Option DecNum) (resp : Nat → FetchOutcome)
    (fuel : Nat) : Option DiscoveryResult :=
  match cache with
  | some p => some ⟨p, 0, [], some p⟩
  | none => resolveAux resp fuel 0 []

/-! ## Reconnect engine (`connectWithReconnects` in `remoteClient.ts`)

The i-th `client.connect` outcome is supplied by an oracle `conn`; the j-th
discovery run (when a workspaceFolder is present) resolves to `discover j`
and sets the shared cached port. The attempt loop runs
`while (attempt <= maxAttempts)`; a failure classified "no server" while the
cached port is set resets the cache and, with a workspaceFolder, re-discovers
and `continue`s without touching `attempt`; without one it falls back to
`DISCOVERY_PORT` with the cache cleared and proceeds to the normal
backoff/budget step. The normal step breaks when `attempt === maxAttempts`,
else sleeps `min(30000, 2 ** attempt * 200)` ms and increments `attempt`. -/

/-- Outcome of one `client.connect(transport)` call: success, or a thrown
error with its `isNoServerError` classification and message. -/
inductive ConnOutcome where
  | ok
  | fail (noServer : Bool) (msg : String)
deriving DecidableEq

/-- Equality of startup/connect outcomes is decidable (used by concrete
evaluations in the theorems below). -/
instance : DecidableEq (Except String Unit) := fun a b =>
  match a, b with
  | .ok (), .ok () => isTrue rfl
  | .ok (), .error _ => isFalse (by simp)
  | .error _, .ok () => isFalse (by simp)
  | .error m, .error n =>
      if h : m = n then isTrue (by rw [h]) else isFalse (by simp [h])

/-- Observable trace of a `connectWithReconnects` run: the terminal outcome
(`Except.ok ()` = a fully connected handle was returned, `Except.error m` =
`throw new Error(m)`), the number of connect attempts issued, the final value
of the `attempt` budget counter, the backoff sleeps performed (ms), and the
final shared cached-port state. -/
structure ConnectTrace where
  outcome : Except String Unit
  connectAttempts : Nat
  attemptFinal : Nat
  sleepsMs : List Nat
  cached : Option Int
deriving DecidableEq

/-- The capped exponential backoff of the source:
`Math.min(30_000, 2 ** attempt * 200)`. -/
def backoffMs (attempt : Nat) : Nat :=
  min 30000 (2 ^ attempt * 200)

/-- The attempt loop of `connectWithReconnects`. `cIdx` counts connect
attempts issued so far, `dIdx` counts discovery runs, `port` and `cache` are
the current target port and the shared `SSE_PORT` state. -/
def connectLoop (env : Env) (wf : Option String) (conn : Nat → ConnOutcome)
    (discover : Nat → Int) :
    Nat → Nat → Nat → Nat → Int → Option Int → List Nat → Option ConnectTrace
  | 0, _, _, _, _, _, _ => none
  | fuel + 1, attempt, cIdx, dIdx, port, cache, sleeps =>
      if attempt ≤ env.PROXY_RETRY_LIMIT then
        match conn cIdx with
        | .ok => some ⟨.ok (), cIdx + 1, attempt, sleeps, cache⟩
        | .fail noServer _msg =>
            if noServer && cache.isSome then
              match wf with
              | some _ =>
                  connectLoop env wf conn discover fuel attempt (cIdx + 1)
                    (dIdx + 1) (discover dIdx) (some (discover dIdx)) sleeps
              | none =>
                  if attempt == env.PROXY_RETRY_LIMIT then
                    some ⟨.error "SSE connection failed", cIdx + 1, attempt, sleeps, none⟩
                  else
                    connectLoop env wf conn discover fuel (attempt + 1) (cIdx + 1)
                      dIdx env.DISCOVERY_PORT none (sleeps ++ [backoffMs attempt])
            else
              if attempt == env.PROXY_RETRY_LIMIT then
                some ⟨.error "SSE connection failed", cIdx + 1, attempt, sleeps, cache⟩
              else
                connectLoop env wf conn discover fuel (attempt + 1) (cIdx + 1)
                  dIdx port cache (sleeps ++ [backoffMs attempt])
      else
        some ⟨.error "SSE connection failed", cIdx, attempt, sleeps, cache⟩

/-- `connectWithReconnects`: determine the starting port (cached value if
set; else discovery when a workspaceFolder is present, which also sets the
cache; else `DISCOVERY_PORT` directly with no discovery), then run the
attempt loop. -/
def connectWithReconnects (env : Env) (wf : Option String) (cache0 : Option Int)
    (conn : Nat → ConnOutcome) (discover : Nat → Int) (fuel : Nat) :
    Option ConnectTrace :=
  match cache0 with
  | some p => connectLoop env wf conn discover fuel 0 0 0 p (some p) []
  | none =>
      match wf with
      | some _ =>
          connectLoop env wf conn discover fuel 0 0 1 (discover 0)
            (some (discover 0)) []
      | none =>
          connectLoop env wf conn discover fuel 0 0 0 env.DISCOVERY_PORT none []

/-! ## Protocol proxy tool-call handler (`createProxyServer`)

The `CallToolRequestSchema` handler awaits `remote.callTool` inside
`try/catch`: a successful upstream result is returned as-is; a thrown
exception is converted into a normal protocol result with `isError: true`
and a single text content item holding the exception's message. -/

/-- One item of a protocol result's `content` array. -/
inductive ContentItem where
  | textItem (text : String)
  | otherItem (tag : String)
deriving DecidableEq

/-- An upstream `ServerResult`: a tool result with its content and `isError`
flag, or any other protocol result shape (forwarded opaquely). -/
inductive ServerResult where
  | toolResult (content : List ContentItem) (isError : Bool)
  | other (tag : String)
deriving DecidableEq

/-- The tools/call request handler: the upstream invocation either returned a
result or threw an error with the given message. The handler is total — no
exception escapes to the downstream session. -/
def handleCallTool (upstream : Except String ServerResult) : ServerResult :=
  match upstream with
  | .ok r => r
  | .error msg => .toolResult [.textItem msg] true

/-! ## Process entry point (`stdioMain`)

The startup `try` block runs, in order: `connectWithReconnects` (acquiring
the upstream handle and its `close`), `createProxyServer` (which pings the
upstream), and the stdio transport attach. The `catch` logs exactly one
stderr line "startup failed: <message>" via `logger.error` (severity `error`
always prints), best-effort awaits the remote close when it was acquired, and
exits with code 1. A successful start later shuts down through `graceful`,
which closes the server and the remote handle and exits with code 0. -/

/-- Outcomes of the three startup phases of `stdioMain`. -/
structure StartupOutcomes where
  connect : Except String Unit
  buildProxy : Except String Unit
  attach : Except String Unit
deriving DecidableEq

/-- Observable result of a `stdioMain` run: the process exit code, the stderr
lines matching "startup failed: ...", and whether the upstream handle's
`close` was invoked. -/
structure RunResult where
  exitCode : Nat
  startupFailedLines : List String
  remoteCloseCalled : Bool
deriving DecidableEq

/-- Whether an `Except` outcome is a success. -/
def exceptOk : Except String Unit → Bool
  | .ok _ => true
  | .error _ => false

/-- The message of the first failing startup phase, if any. -/
def firstStartupError (o : StartupOutcomes) : Option String :=
  match o.connect with
  | .error m => some m
  | .ok _ =>
      match o.buildProxy with
      | .error m => some m
      | .ok _ =>
          match o.attach with
          | .error m => some m
          | .ok _ => none

/-- `stdioMain`: on any startup failure, emit one "startup failed" line,
close the remote handle when it had been acquired, and exit 1; on success the
process runs until graceful shutdown, which closes the handle and exits 0. -/
def stdioMain (o : StartupOutcomes) : RunResult :=
  match o.connect with
  | .error m => ⟨1, ["startup failed: " ++ m], false⟩
  | .ok _ =>
      match o.buildProxy with
      | .error m => ⟨1, ["startup failed: " ++ m], true⟩
      | .ok _ =>
          match o.attach with
          | .error m => ⟨1, ["startup failed: " ++ m], true⟩
          | .ok _ => ⟨0, [], true⟩

/-! ## SSE host-side session registry (`sse-http-server.ts`)

State of one `SseHttpServer`: the `transports` map (session ids, insertion
order), `lastActiveSessionId`, the heartbeat timers, and the pending-message
queue. `closedStreams` and `delivered` record the observable events: which
session streams were closed and which messages were handed to which session's
transport, in order. Closing a transport ends its response stream, whose
`close` handler removes the map entry and clears the heartbeat. -/

/-- Opaque session identifier. -/
abbrev SessionId := String

/-- Opaque parsed JSON-RPC message body. -/
abbrev Msg := String

/-- Registry state of the SSE HTTP server plus its observable event log. -/
structure Registry where
  transports : List SessionId
  lastActiveSessionId : Option SessionId
  heartbeats : List SessionId
  pendingMessages : List Msg
  mcpServerClosed : Bool
  closedStreams : List SessionId
  delivered : List (SessionId × Msg)
deriving DecidableEq

/-- `closeCurrentConnection`: close every active transport (their stream
`close` handlers clear the matching heartbeats), empty the map, clear the
last-active pointer. It does NOT close the MCP server instance. -/
def closeCurrentConnection (r : Registry) : Registry :=
  { r with
    transports := []
    heartbeats := r.heartbeats.filter fun h => decide (¬ h ∈ r.transports)
    lastActiveSessionId := none
    closedStreams := r.closedStreams ++ r.transports }

/-- Register a freshly created `SSEServerTransport`: add it to the map, make
it the last-active session, start its heartbeat. -/
def registerSession (r : Registry) (newId : SessionId) : Registry :=
  { r with
    transports := r.transports ++ [newId]
    lastActiveSessionId := some newId
    heartbeats := r.heartbeats ++ [newId] }

/-- GET /sse: close all previous sessions, register the new one, connect the
MCP server to it, then flush the pending-message queue, in order, into the
new session. -/
def establishSse (r : Registry) (newId : SessionId) : Registry :=
  let r1 := closeCurrentConnection r
  let r2 := registerSession r1 newId
  { r2 with
    pendingMessages := []
    delivered := r2.delivered ++ r2.pendingMessages.map fun m => (newId, m) }

/-- The POST paths routed to the message handler. -/
inductive PostPath where
  | messages
  | sse
  | root
deriving DecidableEq

/-- The HTTP response of the POST message handler. -/
inductive PostResponse where
  | handled (sid : SessionId)
  | promoted (sid : SessionId)
  | redirect303 (location : String)
  | badRequest
deriving DecidableEq

/-- The last-active transport when it is still in the map. -/
def lastActiveLive (r : Registry) : Option SessionId :=
  match r.lastActiveSessionId with
  | some la => if la ∈ r.transports then some la else none
  | none => none

/-- Transport selection of the POST handler: the supplied sessionId when it
is in the map, else the live last-active transport. -/
def selectTransport (r : Registry) (sessionId : Option SessionId) :
    Option SessionId :=
  match sessionId with
  | some sid => if sid ∈ r.transports then some sid else lastActiveLive r
  | none => lastActiveLive r

/-- Promotion of a POST /sse without sessionId into a fresh SSE session:
close previous sessions, register the new one, and deliver the POST body (if
an object was parsed) as the first message. The pending queue is NOT flushed
on this path. -/
def promoteSse (r : Registry) (body : Option Msg) (fresh : SessionId) :
    Registry × PostResponse :=
  let r1 := closeCurrentConnection r
  let r2 := registerSession r1 fresh
  ({ r2 with delivered := r2.delivered ++ (body.toList.map fun m => (fresh, m)) },
   .promoted fresh)

/-- The no-transport branch of the POST handler: promotion for POST /sse
without sessionId; 303 redirect to /sse with the parsed body queued for an
unknown supplied sessionId; 400 otherwise. -/
def postNoTransport (r : Registry) (path : PostPath)
    (sessionId : Option SessionId) (body : Option Msg) (fresh : SessionId) :
    Registry × PostResponse :=
  match path, sessionId with
  | .sse, none => promoteSse r body fresh
  | .sse, some _ =>
      ({ r with pendingMessages := r.pendingMessages ++ body.toList },
       .redirect303 "/sse")
  | .messages, some _ =>
      ({ r with pendingMessages := r.pendingMessages ++ body.toList },
       .redirect303 "/sse")
  | .root, some _ =>
      ({ r with pendingMessages := r.pendingMessages ++ body.toList },
       .redirect303 "/sse")
  | .messages, none => (r, .badRequest)
  | .root, none => (r, .badRequest)

/-- The POST /messages (aliases /sse, /) handler: deliver to the selected
transport when one exists, else the no-transport branch. `fresh` is the
session id a promotion would mint. -/
def postMessage (r : Registry) (path : PostPath) (sessionId : Option SessionId)
    (body : Option Msg) (fresh : SessionId) : Registry × PostResponse :=
  match selectTransport r sessionId with
  | some sid =>
      ({ r with delivered := r.delivered ++ (body.toList.map fun m => (sid, m)) },
       .handled sid)
  | none => postNoTransport r path sessionId body fresh

/-- The field path named by a configuration error, if the parse failed. -/
def errField : Except ConfigErr Env → Option String
  | .error c => some c.fieldPath
  | .ok _ => none

/-! # Theorems -/

/-- C1: every tools/call whose upstream invocation throws is answered with a
normal protocol result carrying `isError = true` and a single text content
item equal to the exception's message — the handler is a total function, so
the exception never reaches the downstream session — and every successful
upstream invocation has its result returned unchanged. -/
theorem callTool_exception_to_error_result :
    (∀ r, handleCallTool (Except.ok r) = r) ∧
    (∀ m, handleCallTool (Except.error m) =
      ServerResult.toolResult [ContentItem.textItem m] true) :=
  ⟨fun _ => rfl, fun _ => rfl⟩

/-- C8: `isNoServerError err` is true exactly when `err` is an object whose
`code` property is the string "ENOTFOUND", "ECONNREFUSED" or "ECONNRESET";
it is false on every other input, including `null`, `undefined`, objects
without a `code` property, and non-string codes. -/
theorem isNoServerError_spec (e : JsErr) :
    isNoServerError e = true ↔
      e = JsErr.vObj (some (JsCode.str "ENOTFOUND")) ∨
      e = JsErr.vObj (some (JsCode.str "ECONNREFUSED")) ∨
      e = JsErr.vObj (some (JsCode.str "ECONNRESET")) := by
  cases e with
  | vNull => simp [isNoServerError]
  | vUndefined => simp [isNoServerError]
  | vObj code =>
      cases code with
      | none => simp [isNoServerError]
      | some c =>
          cases c with
          | nonString => simp [isNoServerError]
          | str s => simp [isNoServerError, or_assoc]

/-- C4: a `stdioMain` run whose startup fails (in the bridge connection, the
proxy construction, or the stdio attach) emits exactly one stderr line
"startup failed: <message>" for the first failing phase, best-effort closes
the upstream handle exactly when it had been acquired, and exits with code 1;
a run that starts successfully shuts down gracefully with exit code 0. -/
theorem stdioMain_exit_codes (o : StartupOutcomes) :
    (∀ m, firstStartupError o = some m →
       stdioMain o = ⟨1, ["startup failed: " ++ m], exceptOk o.connect⟩) ∧
    (firstStartupError o = none → stdioMain o = ⟨0, [], true⟩) := by
  obtain ⟨c, b, a⟩ := o
  cases c <;> cases b <;> cases a <;>
    simp [stdioMain, firstStartupError, exceptOk]

/-- Witness for C4: a concrete failing start exits 1 with one diagnostic
line and no remote close (nothing was acquired); a concrete clean run
exits 0. -/
theorem stdioMain_exit_codes_witness :
    stdioMain ⟨Except.error "boom", Except.ok (), Except.ok ()⟩ =
      ⟨1, ["startup failed: boom"], false⟩ ∧
    stdioMain ⟨Except.ok (), Except.ok (), Except.ok ()⟩ = ⟨0, [], true⟩ :=
  ⟨(stdioMain_exit_codes ⟨Except.error "boom", Except.ok (), Except.ok ()⟩).1
      "boom" rfl,
   (stdioMain_exit_codes ⟨Except.ok (), Except.ok (), Except.ok ()⟩).2 rfl⟩

/-- C9: `readEnv` of an empty snapshot yields exactly the defaults
(host "localhost", port 60100, path "/sse", retry limit 5, level "info");
and a snapshot whose port coerces (by JS `Number`) to NaN, a non-integer,
or an integer out of range, whose retry limit coerces to NaN, a non-integer
or a negative integer, whose path does not start with "/", whose log level
is unknown, or whose host is empty, fails — atomically, since the `Except`
result carries no partial configuration — with an error naming the
offending field. The closing conjuncts exercise the `Number` coercion where
it differs from a naive digit parse: `""` coerces to 0, `" 80"`, `"+5"`,
`"0x50"` and `"1e3"` to in-range integers, and `readEnv` accepts them
exactly as the program does. -/
theorem readEnv_spec :
    (readEnv {} = Except.ok ⟨"localhost", 60100, "/sse", 5, LogLevel.info⟩) ∧
    (∀ s, portViolationB s = true →
       errField (readEnv { DISCOVERY_PORT := some s }) = some "DISCOVERY_PORT") ∧
    (∀ s, retryViolationB s = true →
       errField (readEnv { PROXY_RETRY_LIMIT := some s }) = some "PROXY_RETRY_LIMIT") ∧
    (∀ s, startsWithSlash s = false →
       errField (readEnv { DISCOVERY_PATH := some s }) = some "DISCOVERY_PATH") ∧
    (∀ s, parseLogLevel s = none →
       errField (readEnv { PROXY_LOG_LEVEL := some s }) = some "PROXY_LOG_LEVEL") ∧
    (∀ s, s.length = 0 →
       errField (readEnv { DISCOVERY_HOST := some s }) = some "DISCOVERY_HOST") ∧
    (readEnv { DISCOVERY_PORT := some " 80", PROXY_RETRY_LIMIT := some "" } =
       Except.ok ⟨"localhost", 80, "/sse", 0, LogLevel.info⟩) ∧
    (readEnv { DISCOVERY_PORT := some "0x50", PROXY_RETRY_LIMIT := some "+5" } =
       Except.ok ⟨"localhost", 80, "/sse", 5, LogLevel.info⟩) ∧
    (readEnv { DISCOVERY_PORT := some "1e3" } =
       Except.ok ⟨"localhost", 1000, "/sse", 5, LogLevel.info⟩) := by
  refine ⟨rfl, ?_, ?_, ?_, ?_, ?_, rfl, rfl, rfl⟩
  · intro s h
    cases hj : jsNumberOfString s with
    | nan =>
        simp [readEnv, validateHost, validatePort, validatePath, validateRetryLimit,
          validateLogLevel, errField, hj, Bind.bind, Except.bind]
    | inf b =>
        simp [readEnv, validateHost, validatePort, validatePath, validateRetryLimit,
          validateLogLevel, errField, hj, Bind.bind, Except.bind]
    | num v =>
        simp only [portViolationB, hj] at h
        cases hb : v.isIntB with
        | false =>
            simp [readEnv, validateHost, validatePort, validatePath,
              validateRetryLimit, validateLogLevel, errField, hj, hb,
              Bind.bind, Except.bind]
        | true =>
            rw [hb] at h
            simp only [Bool.not_true, Bool.false_or, Bool.or_eq_true,
              decide_eq_true_eq] at h
            have hrange : ¬ (1 ≤ v.toIntVal ∧ v.toIntVal ≤ 65535) := by
              rcases h with h1 | h1 <;> omega
            simp [readEnv, validateHost, validatePort, validatePath,
              validateRetryLimit, validateLogLevel, errField, hj, hb, hrange,
              Bind.bind, Except.bind]
  · intro s h
    cases hj : jsNumberOfString s with
    | nan =>
        simp [readEnv, validateHost, validatePort, validatePath, validateRetryLimit,
          validateLogLevel, errField, hj, Bind.bind, Except.bind]
    | inf b =>
        simp [readEnv, validateHost, validatePort, validatePath, validateRetryLimit,
          validateLogLevel, errField, hj, Bind.bind, Except.bind]
    | num v =>
        simp only [retryViolationB, hj] at h
        cases hb : v.isIntB with
        | false =>
            simp [readEnv, validateHost, validatePort, validatePath,
              validateRetryLimit, validateLogLevel, errField, hj, hb,
              Bind.bind, Except.bind]
        | true =>
            rw [hb] at h
            simp only [Bool.not_true, Bool.false_or, Bool.or_eq_true,
              decide_eq_true_eq] at h
            have hneg : ¬ (0 ≤ v.toIntVal) := by omega
            simp [readEnv, validateHost, validatePort, validatePath,
              validateRetryLimit, validateLogLevel, errField, hj, hb, hneg,
              Bind.bind, Except.bind]
  · intro s h
    simp [readEnv, validateHost, validatePort, validatePath, validateRetryLimit,
      validateLogLevel, errField, h, Bind.bind, Except.bind]
  · intro s h
    simp [readEnv, validateHost, validatePort, validatePath, validateRetryLimit,
      validateLogLevel, errField, h, Bind.bind, Except.bind]
  · intro s h
    have hlen : ¬ (1 ≤ s.length) := by omega
    simp [readEnv, validateHost, validatePort, validatePath, validateRetryLimit,
      validateLogLevel, errField, hlen, Bind.bind, Except.bind]

/-- Witness for C9: the defaults on the empty snapshot, an out-of-range
port, a non-numeric port, a fractional port, a negative retry limit, and an
unknown log level at concrete inputs. -/
theorem readEnv_spec_witness :
    (readEnv {} = Except.ok ⟨"localhost", 60100, "/sse", 5, LogLevel.info⟩) ∧
    errField (readEnv { DISCOVERY_PORT := some "99999" }) = some "DISCOVERY_PORT" ∧
    errField (readEnv { DISCOVERY_PORT := some "not-a-number" }) = some "DISCOVERY_PORT" ∧
    errField (readEnv { DISCOVERY_PORT := some "0.5" }) = some "DISCOVERY_PORT" ∧
    errField (readEnv { PROXY_RETRY_LIMIT := some "-5" }) = some "PROXY_RETRY_LIMIT" ∧
    errField (readEnv { PROXY_LOG_LEVEL := some "verbose" }) = some "PROXY_LOG_LEVEL" :=
  ⟨readEnv_spec.1,
   readEnv_spec.2.1 "99999" (by decide),
   readEnv_spec.2.1 "not-a-number" (by decide),
   readEnv_spec.2.1 "0.5" (by decide),
   readEnv_spec.2.2.1 "-5" (by decide),
   readEnv_spec.2.2.2.2.1 "verbose" rfl⟩

/-- Helper: the polling loop terminates at the first good response, counting
one call per iteration and one 5000 ms sleep per unsuccessful iteration. -/
lemma resolveAux_first_good (resp : Nat → FetchOutcome) (n : DecNum) :
    ∀ k j sleeps fuel,
      (∀ i, i < k → goodPort (resp (j + i)) = none) →
      goodPort (resp (j + k)) = some n → k < fuel →
      resolveAux resp fuel j sleeps =
        some ⟨n, j + k + 1, sleeps ++ List.replicate k 5000, some n⟩ := by
  intro k
  induction k with
  | zero =>
      intro j sleeps fuel _hb hk hfuel
      obtain ⟨f, rfl⟩ : ∃ f, fuel = f + 1 := ⟨fuel - 1, by omega⟩
      simp only [Nat.add_zero] at hk
      simp [resolveAux, hk, List.replicate]
  | succ k ih =>
      intro j sleeps fuel hb hk hfuel
      obtain ⟨f, rfl⟩ : ∃ f, fuel = f + 1 := ⟨fuel - 1, by omega⟩
      have h0 : goodPort (resp j) = none := by
        have := hb 0 (Nat.succ_pos k)
        simpa using this
      have hb' : ∀ i, i < k → goodPort (resp (j + 1 + i)) = none := by
        intro i hi
        have := hb (i + 1) (by omega)
        have harith : j + (i + 1) = j + 1 + i := by omega
        rwa [harith] at this
      have hk' : goodPort (resp (j + 1 + k)) = some n := by
        have harith : j + (k + 1) = j + 1 + k := by omega
        rwa [harith] at hk
      have := ih (j + 1) (sleeps ++ [5000]) f hb' hk' (by omega)
      simp only [resolveAux, h0]
      rw [this]
      congr 2
      · omega
      · simp [List.replicate_succ, List.append_assoc]

/-- Helper: with no good response within the fuel, the loop is still
retrying when the fuel runs out. -/
lemma resolveAux_no_good (resp : Nat → FetchOutcome) :
    ∀ fuel j sleeps,
      (∀ i, i < fuel → goodPort (resp (j + i)) = none) →
      resolveAux resp fuel j sleeps = none := by
  intro fuel
  induction fuel with
  | zero => intro j sleeps _h; rfl
  | succ f ih =>
      intro j sleeps h
      have h0 : goodPort (resp j) = none := by
        have := h 0 (Nat.succ_pos f)
        simpa using this
      have h' : ∀ i, i < f → goodPort (resp (j + 1 + i)) = none := by
        intro i hi
        have := h (i + 1) (by omega)
        have harith : j + (i + 1) = j + 1 + i := by omega
        rwa [harith] at this
      simp only [resolveAux, h0]
      exact ih (j + 1) (sleeps ++ [5000]) h'

/-- Helper: every successful polling run leaves the cached port equal to the
returned port. -/
lemma resolveAux_cached (resp : Nat → FetchOutcome) :
    ∀ fuel j sleeps r,
      resolveAux resp fuel j sleeps = some r → r.cached = some r.port := by
  intro fuel
  induction fuel with
  | zero => intro j sleeps r h; exact absurd h (by simp [resolveAux])
  | succ f ih =>
      intro j sleeps r h
      rcases hg : goodPort (resp j) with _ | p
      · simp only [resolveAux, hg] at h
        exact ih (j + 1) (sleeps ++ [5000]) r h
      · simp only [resolveAux, hg] at h
        obtain rfl := Option.some.inj h
        rfl

/-- C7 counterexample: a 2xx response whose body is `\x7bport: 0.5\x7d` is
accepted by the source's `data.port > 0 && data.port <= 65535` check: the
loop terminates at the first call with no wait, storing and returning 0.5 —
a value below 1 and not an integer — where the claim says a port outside
[1, 65535] is an unsuccessful attempt followed by a 5-second wait. -/
theorem resolveSsePort_accepts_fractional_port_cex :
    resolveSsePortWithRetry none
        (fun _ => FetchOutcome.response 200 (some ⟨5, -1⟩)) 5 =
      some ⟨⟨5, -1⟩, 1, [], some ⟨5, -1⟩⟩ ∧
    DecNum.geIntB ⟨5, -1⟩ 1 = false ∧
    DecNum.isIntB ⟨5, -1⟩ = false := by
  refine ⟨rfl, rfl, rfl⟩

/-- C7 (amended): with no cached port, `resolveSsePortWithRetry` polls with
no attempt cap, sleeping 5000 ms after each unsuccessful attempt (404, other
non-2xx, network failure, or 2xx body without a numeric port n satisfying
0 < n <= 65535), and returns exactly at the first 2xx response carrying a
port n with 0 < n <= 65535 — any JS number in that window, integer or not —
having made k+1 calls and k sleeps, with n stored in the shared cached-port
state; if no attempt within the fuel is good, the loop is still running. -/
theorem resolveSsePort_polls_until_valid (resp : Nat → FetchOutcome)
    (fuel k : Nat) (n : DecNum) :
    ((∀ i, i < k → goodPort (resp i) = none) → goodPort (resp k) = some n →
      k < fuel →
      resolveSsePortWithRetry none resp fuel =
        some ⟨n, k + 1, List.replicate k 5000, some n⟩) ∧
    ((∀ i, i < fuel → goodPort (resp i) = none) →
      resolveSsePortWithRetry none resp fuel = none) := by
  constructor
  · intro hb hk hfuel
    have := resolveAux_first_good resp n k 0 [] fuel
      (by intro i hi; simpa using hb i hi) (by simpa using hk) hfuel
    simpa [resolveSsePortWithRetry] using this
  · intro h
    have := resolveAux_no_good resp fuel 0 [] (by intro i hi; simpa using h i hi)
    simpa [resolveSsePortWithRetry] using this

/-- Witness for C7: an endpoint answering 404 twice and then 200 with
port 60300 resolves in exactly 3 calls, with two 5-second waits, to 60300,
and caches it. -/
theorem resolveSsePort_polls_until_valid_witness :
    resolveSsePortWithRetry none
        (fun i => if i < 2 then FetchOutcome.response 404 none
                  else FetchOutcome.response 200 (some ⟨60300, 0⟩)) 3 =
      some ⟨⟨60300, 0⟩, 3, List.replicate 2 5000, some ⟨60300, 0⟩⟩ :=
  (resolveSsePort_polls_until_valid
      (fun i => if i < 2 then FetchOutcome.response 404 none
                else FetchOutcome.response 200 (some ⟨60300, 0⟩)) 3 2 ⟨60300, 0⟩).1
    (by intro i hi; interval_cases i <;> rfl) (by rfl) (by omega)

/-- C10: when the shared cached port is already set, the `while` guard fails
immediately: `resolveSsePortWithRetry` returns the cached value with zero
fetch calls and zero waits and leaves the state unchanged; consequently a
second call after any successful resolution returns the same port again —
the operation is idempotent until the cache is reset. -/
theorem resolveSsePort_cached_idempotent :
    (∀ (p : DecNum) (resp : Nat → FetchOutcome) (fuel : Nat),
       resolveSsePortWithRetry (some p) resp fuel = some ⟨p, 0, [], some p⟩) ∧
    (∀ (cache : Option DecNum) (resp : Nat → FetchOutcome) (fuel : Nat)
       (r : DiscoveryResult) (resp2 : Nat → FetchOutcome) (fuel2 : Nat),
       resolveSsePortWithRetry cache resp fuel = some r →
       resolveSsePortWithRetry r.cached resp2 fuel2 =
         some ⟨r.port, 0, [], r.cached⟩) := by
  constructor
  · intro p resp fuel; rfl
  · intro cache resp fuel r resp2 fuel2 h
    have hc : r.cached = some r.port := by
      cases cache with
      | some p =>
          have : r = ⟨p, 0, [], some p⟩ := by
            simpa [resolveSsePortWithRetry] using h.symm
          rw [this]
      | none =>
          exact resolveAux_cached resp fuel 0 [] r
            (by simpa [resolveSsePortWithRetry] using h)
    rw [hc]
    rfl

/-- Witness for C10: re-running resolution after a successful run (cache set
to 60300 by a 3-call poll) returns 60300 immediately with no calls. -/
theorem resolveSsePort_cached_idempotent_witness :
    resolveSsePortWithRetry (some ⟨60300, 0⟩)
        (fun _ => FetchOutcome.netError "x") 2 =
      some ⟨⟨60300, 0⟩, 0, [], some ⟨60300, 0⟩⟩ :=
  resolveSsePort_cached_idempotent.2 (some ⟨60300, 0⟩)
    (fun _ => FetchOutcome.netError "y") 7 ⟨⟨60300, 0⟩, 0, [], some ⟨60300, 0⟩⟩
    (fun _ => FetchOutcome.netError "x") 2
    (resolveSsePort_cached_idempotent.1 ⟨60300, 0⟩
      (fun _ => FetchOutcome.netError "y") 7)

/-- C5: establishing a new SSE stream — by GET /sse, or by promotion of a
POST /sse without sessionId (reachable when no live transport matched) —
closes every existing session's transport and clears its heartbeat, and
registers the new session as the only one and as last-active, so at most one
active session exists afterwards; this closing step does not touch the MCP
server instance. -/
theorem sse_single_active_session (r : Registry) (id : SessionId)
    (hfresh : ¬ id ∈ r.transports) :
    ((establishSse r id).transports = [id] ∧
     (establishSse r id).lastActiveSessionId = some id ∧
     (∀ s, s ∈ r.transports →
        s ∈ (establishSse r id).closedStreams ∧
        ¬ s ∈ (establishSse r id).heartbeats) ∧
     (establishSse r id).mcpServerClosed = r.mcpServerClosed) ∧
    (∀ (body : Option Msg),
       (∀ la, r.lastActiveSessionId = some la → ¬ la ∈ r.transports) →
       ((postMessage r PostPath.sse none body id).1.transports = [id] ∧
        (postMessage r PostPath.sse none body id).1.lastActiveSessionId = some id ∧
        (∀ s, s ∈ r.transports →
           s ∈ (postMessage r PostPath.sse none body id).1.closedStreams ∧
           ¬ s ∈ (postMessage r PostPath.sse none body id).1.heartbeats) ∧
        (postMessage r PostPath.sse none body id).1.mcpServerClosed =
          r.mcpServerClosed)) := by
  constructor
  · refine ⟨rfl, rfl, ?_, rfl⟩
    intro s hs
    constructor
    · simp [establishSse, closeCurrentConnection, registerSession, hs]
    · simp only [establishSse, closeCurrentConnection, registerSession,
        List.mem_append, List.mem_filter, List.mem_singleton]
      rintro (⟨_, hdec⟩ | rfl)
      · rw [decide_eq_true_iff] at hdec
        exact hdec hs
      · exact hfresh hs
  · intro body hNoLA
    have hpost : postMessage r PostPath.sse none body id =
        promoteSse r body id := by
      cases hl : r.lastActiveSessionId with
      | none => simp [postMessage, selectTransport, lastActiveLive, postNoTransport, hl]
      | some la =>
          have hla := hNoLA la hl
          simp [postMessage, selectTransport, lastActiveLive, postNoTransport, hl, hla]
    refine ⟨?_, ?_, ?_, ?_⟩
    · rw [hpost]; rfl
    · rw [hpost]; rfl
    · intro s hs
      rw [hpost]
      constructor
      · simp [promoteSse, closeCurrentConnection, registerSession, hs]
      · simp only [promoteSse, closeCurrentConnection, registerSession,
          List.mem_append, List.mem_filter, List.mem_singleton]
        rintro (⟨_, hdec⟩ | rfl)
        · rw [decide_eq_true_iff] at hdec
          exact hdec hs
        · exact hfresh hs
    · rw [hpost]; rfl

/-- Witness for C5: with one live session "A" (with heartbeat), a GET /sse
establishing "B" closes the stream of "A", clears its heartbeat, leaves only
"B" registered and last-active, and does not close the MCP server; the
promotion path from a POST /sse without sessionId does the same. -/
theorem sse_single_active_session_witness :
    (establishSse ⟨["A"], some "A", ["A"], [], false, [], []⟩ "B").transports = ["B"] ∧
    (establishSse ⟨["A"], some "A", ["A"], [], false, [], []⟩ "B").lastActiveSessionId = some "B" ∧
    ("A" ∈ (establishSse ⟨["A"], some "A", ["A"], [], false, [], []⟩ "B").closedStreams ∧
     ¬ "A" ∈ (establishSse ⟨["A"], some "A", ["A"], [], false, [], []⟩ "B").heartbeats) ∧
    (establishSse ⟨["A"], some "A", ["A"], [], false, [], []⟩ "B").mcpServerClosed = false ∧
    (postMessage ⟨["A"], none, ["A"], [], false, [], []⟩ PostPath.sse none
        (some "hello") "B").1.transports = ["B"] := by
  have h := sse_single_active_session ⟨["A"], some "A", ["A"], [], false, [], []⟩
    "B" (by decide)
  have h2 := sse_single_active_session ⟨["A"], none, ["A"], [], false, [], []⟩
    "B" (by decide)
  exact ⟨h.1.1, h.1.2.1, h.1.2.2.1 "A" (by decide), h.1.2.2.2,
    (h2.2 (some "hello") (by simp)).1⟩

/-- C6 counterexample: the claim fails on the code in two ways. First, a
POST supplying the unknown sessionId "A" while session "B" is live and
last-active is routed to "B" by the fallback, not answered with a 303, and
nothing is queued. Second, a queued message "q" is not delivered on a
session established via the POST /sse promotion path (only GET /sse flushes
the queue): after promotion the queue still holds "q" and the new session
received only the POST body. -/
theorem post_unknown_session_cex :
    ((postMessage ⟨["B"], some "B", ["B"], [], false, [], []⟩ PostPath.messages
        (some "A") (some "m1") "F").2 = PostResponse.handled "B" ∧
     ¬ (postMessage ⟨["B"], some "B", ["B"], [], false, [], []⟩ PostPath.messages
        (some "A") (some "m1") "F").2 = PostResponse.redirect303 "/sse" ∧
     (postMessage ⟨["B"], some "B", ["B"], [], false, [], []⟩ PostPath.messages
        (some "A") (some "m1") "F").1.pendingMessages = []) ∧
    ((postMessage ⟨[], none, [], ["q"], false, [], []⟩ PostPath.sse none
        (some "m2") "N").2 = PostResponse.promoted "N" ∧
     (postMessage ⟨[], none, [], ["q"], false, [], []⟩ PostPath.sse none
        (some "m2") "N").1.pendingMessages = ["q"] ∧
     (postMessage ⟨[], none, [], ["q"], false, [], []⟩ PostPath.sse none
        (some "m2") "N").1.delivered = [("N", "m2")]) := by
  decide

/-- C6 (amended): a POST supplying a sessionId that is not in the transport
map is answered with a 303 redirect to /sse and its parsed body queued only
when no live last-active transport exists (otherwise the fallback routes the
message to the last-active session); the queued messages are delivered, in
order, and the queue emptied, on the next session established via GET /sse
(a session created by POST /sse promotion does not flush the queue). -/
theorem post_unknown_session_redirects_and_queues (r : Registry)
    (path : PostPath) (sid : SessionId) (body : Option Msg) (fresh : SessionId)
    (hUnknown : ¬ sid ∈ r.transports)
    (hNoLA : ∀ la, r.lastActiveSessionId = some la → ¬ la ∈ r.transports) :
    postMessage r path (some sid) body fresh =
      ({ r with pendingMessages := r.pendingMessages ++ body.toList },
        PostResponse.redirect303 "/sse") ∧
    (∀ (r2 : Registry) (newId : SessionId),
       (establishSse r2 newId).delivered =
         r2.delivered ++ r2.pendingMessages.map (fun m => (newId, m)) ∧
       (establishSse r2 newId).pendingMessages = []) := by
  constructor
  · cases hl : r.lastActiveSessionId with
    | none =>
        cases path <;>
          simp [postMessage, selectTransport, lastActiveLive, postNoTransport,
            hl, hUnknown]
    | some la =>
        have hla := hNoLA la hl
        cases path <;>
          simp [postMessage, selectTransport, lastActiveLive, postNoTransport,
            hl, hUnknown, hla]
  · intro r2 newId
    exact ⟨rfl, rfl⟩

/-- Witness for C6 (amended): with no session alive, a POST with stale
sessionId "old" and body "m" yields the 303 redirect to /sse and queues "m";
the next GET /sse establishing "S" delivers "m" to "S" and empties the
queue. -/
theorem post_unknown_session_redirects_and_queues_witness :
    postMessage ⟨[], none, [], [], false, [], []⟩ PostPath.messages
        (some "old") (some "m") "F" =
      ({ transports := [], lastActiveSessionId := none, heartbeats := [],
         pendingMessages := ["m"], mcpServerClosed := false,
         closedStreams := [], delivered := [] },
        PostResponse.redirect303 "/sse") ∧
    (establishSse ⟨[], none, [], ["m"], false, [], []⟩ "S").delivered =
      [("S", "m")] ∧
    (establishSse ⟨[], none, [], ["m"], false, [], []⟩ "S").pendingMessages = [] := by
  have h := post_unknown_session_redirects_and_queues
    ⟨[], none, [], [], false, [], []⟩ PostPath.messages "old" (some "m") "F"
    (by decide) (by simp)
  exact ⟨h.1, (h.2 ⟨[], none, [], ["m"], false, [], []⟩ "S").1,
    (h.2 ⟨[], none, [], ["m"], false, [], []⟩ "S").2⟩

/-- Helper: one failed attempt that neither succeeds nor takes the
free-retry branch, with budget remaining, backs off and recurses with the
attempt counter incremented. -/
lemma connectLoop_step_fail (env : Env) (wf : Option String)
    (conn : Nat → ConnOutcome) (discover : Nat → Int) (cache : Option Int)
    (f attempt cIdx dIdx : Nat) (port : Int) (sleeps : List Nat)
    (b : Bool) (m : String)
    (hle : attempt ≤ env.PROXY_RETRY_LIMIT)
    (hne : (attempt == env.PROXY_RETRY_LIMIT) = false)
    (hm : conn cIdx = ConnOutcome.fail b m)
    (hb : (b && cache.isSome) = false) :
    connectLoop env wf conn discover (f + 1) attempt cIdx dIdx port cache sleeps =
      connectLoop env wf conn discover f (attempt + 1) (cIdx + 1) dIdx port cache
        (sleeps ++ [backoffMs attempt]) := by
  simp only [connectLoop, hle, if_true, hm, hb, Bool.false_eq_true, if_false, hne]

/-- Helper: a failed attempt (no success, no free retry) with the budget
exhausted breaks out of the loop with the summary error. -/
lemma connectLoop_break_fail (env : Env) (wf : Option String)
    (conn : Nat → ConnOutcome) (discover : Nat → Int) (cache : Option Int)
    (f cIdx dIdx : Nat) (port : Int) (sleeps : List Nat) (b : Bool) (m : String)
    (hm : conn cIdx = ConnOutcome.fail b m)
    (hb : (b && cache.isSome) = false) :
    connectLoop env wf conn discover (f + 1) env.PROXY_RETRY_LIMIT cIdx dIdx
        port cache sleeps =
      some ⟨.error "SSE connection failed", cIdx + 1, env.PROXY_RETRY_LIMIT,
            sleeps, cache⟩ := by
  simp [connectLoop, hm, hb]

/-- Helper: when every connect attempt fails and the free-retry branch is
never enabled — either every failure is classified non-"no server", or the
cache is empty with no workspaceFolder — the attempt loop performs the
remaining budget of attempts, sleeping the capped exponential backoff
between consecutive ones, and exits with the summary error, leaving the
cache untouched. -/
lemma connectLoop_all_fail (env : Env) (wf : Option String)
    (conn : Nat → ConnOutcome) (discover : Nat → Int) (cache : Option Int)
    (hconn : (∀ i, ∃ m, conn i = ConnOutcome.fail false m) ∨
             (cache = none ∧ wf = none ∧
              ∀ i, ∃ b m, conn i = ConnOutcome.fail b m)) :
    ∀ k attempt cIdx dIdx port sleeps fuel,
      attempt + k = env.PROXY_RETRY_LIMIT → k + 1 ≤ fuel →
      connectLoop env wf conn discover fuel attempt cIdx dIdx port cache sleeps =
        some ⟨.error "SSE connection failed", cIdx + k + 1,
              env.PROXY_RETRY_LIMIT,
              sleeps ++ (List.range k).map (fun j => backoffMs (attempt + j)),
              cache⟩ := by
  have hfail : ∀ i, ∃ b m, conn i = ConnOutcome.fail b m ∧
      (b && cache.isSome) = false := by
    rcases hconn with hA | ⟨hc, _hw, hB⟩
    · intro i
      obtain ⟨m, hm⟩ := hA i
      exact ⟨false, m, hm, by simp⟩
    · intro i
      obtain ⟨b, m, hm⟩ := hB i
      exact ⟨b, m, hm, by simp [hc]⟩
  intro k
  induction k with
  | zero =>
      intro attempt cIdx dIdx port sleeps fuel hN hfuel
      obtain ⟨f, rfl⟩ : ∃ f, fuel = f + 1 := ⟨fuel - 1, by omega⟩
      have hA : attempt = env.PROXY_RETRY_LIMIT := by omega
      subst hA
      obtain ⟨b, m, hm, hb⟩ := hfail cIdx
      rw [connectLoop_break_fail env wf conn discover cache f cIdx dIdx port
        sleeps b m hm hb]
      simp
  | succ k ih =>
      intro attempt cIdx dIdx port sleeps fuel hN hfuel
      obtain ⟨f, rfl⟩ : ∃ f, fuel = f + 1 := ⟨fuel - 1, by omega⟩
      have hle : attempt ≤ env.PROXY_RETRY_LIMIT := by omega
      have hne : (attempt == env.PROXY_RETRY_LIMIT) = false := by
        simp only [beq_eq_false_iff_ne, ne_eq]
        omega
      obtain ⟨b, m, hm, hb⟩ := hfail cIdx
      have hnext := ih (attempt + 1) (cIdx + 1) dIdx port
        (sleeps ++ [backoffMs attempt]) f (by omega) (by omega)
      rw [connectLoop_step_fail env wf conn discover cache f attempt cIdx dIdx
        port sleeps b m hle hne hm hb, hnext]
      simp only [Option.some.injEq, ConnectTrace.mk.injEq]
      refine ⟨trivial, by omega, trivial, ?_, trivial⟩
      rw [List.append_assoc]
      congr 1
      rw [List.range_succ_eq_map, List.map_cons, List.map_map,
        List.singleton_append]
      congr 1
      · simp
        intro a _
        congr 1
        omega

/-- C2: when every connect handshake fails with a failure not classified
"no server" (or when no port was ever cached by discovery: empty cache and
no workspaceFolder), `connectWithReconnects` with retry limit N makes
exactly N+1 connection attempts, sleeps min(30000, 200 * 2^attempt) ms
between consecutive attempts for attempt = 0..N-1, and terminates by
throwing an error whose message contains "connection failed" — no
connection handle is returned. -/
theorem connect_exhausts_retry_budget (env : Env) (wf : Option String)
    (cache0 : Option Int) (conn : Nat → ConnOutcome) (discover : Nat → Int)
    (fuel : Nat)
    (hconn : (∀ i, ∃ m, conn i = ConnOutcome.fail false m) ∨
             (cache0 = none ∧ wf = none ∧
              ∀ i, ∃ b m, conn i = ConnOutcome.fail b m))
    (hfuel : env.PROXY_RETRY_LIMIT + 1 ≤ fuel) :
    (connectWithReconnects env wf cache0 conn discover fuel).map
        ConnectTrace.outcome = some (Except.error "SSE connection failed") ∧
    (connectWithReconnects env wf cache0 conn discover fuel).map
        ConnectTrace.connectAttempts = some (env.PROXY_RETRY_LIMIT + 1) ∧
    (connectWithReconnects env wf cache0 conn discover fuel).map
        ConnectTrace.sleepsMs =
      some ((List.range env.PROXY_RETRY_LIMIT).map backoffMs) ∧
    List.IsInfix "connection failed".data "SSE connection failed".data := by
  have hmain : ∃ c, connectWithReconnects env wf cache0 conn discover fuel =
      some ⟨.error "SSE connection failed", env.PROXY_RETRY_LIMIT + 1,
            env.PROXY_RETRY_LIMIT,
            (List.range env.PROXY_RETRY_LIMIT).map
              (fun j => backoffMs (0 + j)), c⟩ := by
    cases cache0 with
    | some p =>
        have hA : ∀ i, ∃ m, conn i = ConnOutcome.fail false m := by
          rcases hconn with hA | ⟨hc, _, _⟩
          · exact hA
          · exact absurd hc (by simp)
        refine ⟨some p, ?_⟩
        simpa [connectWithReconnects] using
          connectLoop_all_fail env wf conn discover (some p) (Or.inl hA)
            env.PROXY_RETRY_LIMIT 0 0 0 p [] fuel (by omega) (by omega)
    | none =>
        cases hwf : wf with
        | some w =>
            have hA : ∀ i, ∃ m, conn i = ConnOutcome.fail false m := by
              rcases hconn with hA | ⟨_, hw, _⟩
              · exact hA
              · rw [hwf] at hw; exact absurd hw (by simp)
            refine ⟨some (discover 0), ?_⟩
            simpa [connectWithReconnects, hwf] using
              connectLoop_all_fail env (some w) conn discover
                (some (discover 0)) (Or.inl hA)
                env.PROXY_RETRY_LIMIT 0 0 1 (discover 0) [] fuel
                (by omega) (by omega)
        | none =>
            have hB : (∀ i, ∃ m, conn i = ConnOutcome.fail false m) ∨
                ((none : Option Int) = none ∧ (none : Option String) = none ∧
                 ∀ i, ∃ b m, conn i = ConnOutcome.fail b m) := by
              rcases hconn with hA | ⟨_, _, hB⟩
              · exact Or.inl hA
              · exact Or.inr ⟨rfl, rfl, hB⟩
            refine ⟨none, ?_⟩
            simpa [connectWithReconnects, hwf] using
              connectLoop_all_fail env none conn discover none hB
                env.PROXY_RETRY_LIMIT 0 0 0 env.DISCOVERY_PORT [] fuel
                (by omega) (by omega)
  obtain ⟨c, hc⟩ := hmain
  rw [hc]
  refine ⟨rfl, rfl, ?_, by decide⟩
  simp

/-- Witness for C2: retry limit 2 and an upstream always failing with
"fetch failed" gives exactly 3 attempts, backoffs 200 ms and 400 ms, and
the "SSE connection failed" error. -/
theorem connect_exhausts_retry_budget_witness :
    (connectWithReconnects ⟨"localhost", 60100, "/sse", 2, LogLevel.info⟩ none
        none (fun _ => ConnOutcome.fail false "fetch failed") (fun _ => 0)
        3).map ConnectTrace.outcome =
      some (Except.error "SSE connection failed") ∧
    (connectWithReconnects ⟨"localhost", 60100, "/sse", 2, LogLevel.info⟩ none
        none (fun _ => ConnOutcome.fail false "fetch failed") (fun _ => 0)
        3).map ConnectTrace.connectAttempts = some 3 ∧
    (connectWithReconnects ⟨"localhost", 60100, "/sse", 2, LogLevel.info⟩ none
        none (fun _ => ConnOutcome.fail false "fetch failed") (fun _ => 0)
        3).map ConnectTrace.sleepsMs = some ((List.range 2).map backoffMs) ∧
    List.IsInfix "connection failed".data "SSE connection failed".data :=
  connect_exhausts_retry_budget ⟨"localhost", 60100, "/sse", 2, LogLevel.info⟩
    none none (fun _ => ConnOutcome.fail false "fetch failed") (fun _ => 0) 3
    (Or.inl fun _ => ⟨"fetch failed", rfl⟩) (by decide)

/-- C3 counterexample: with a cached port (1234) but NO workspaceFolder and
retry limit 0, a single "no server" failure invalidates the cache and falls
back to the default port, but the retry DOES consume an attempt: the run
breaks out of the budget and fails, even though the very next connect
attempt would have succeeded. This refutes the claim that the retry after a
"no server" failure with a cached port never consumes an attempt. -/
theorem connect_noserver_fallback_consumes_budget_cex :
    connectWithReconnects ⟨"localhost", 60100, "/sse", 0, LogLevel.info⟩ none
        (some 1234)
        (fun i => if i == 0 then ConnOutcome.fail true "read ECONNRESET"
                  else ConnOutcome.ok)
        (fun _ => 4321) 5 =
      some ⟨Except.error "SSE connection failed", 1, 0, [], none⟩ ∧
    (fun i => if i == 0 then ConnOutcome.fail true "read ECONNRESET"
              else ConnOutcome.ok) 1 = ConnOutcome.ok := by
  constructor
  · rfl
  · rfl

/-- C3 (amended): a "no server" connect failure while the cached port is set
invalidates the cache and, when a workspaceFolder is present, re-runs
discovery and retries without consuming an attempt from the budget: one
such failure followed by a successful connect succeeds — with the re-
discovered port cached, no backoff sleeps, and the attempt counter still
0 — for every retry limit, including 0. Without a workspaceFolder the
fallback to the configured default port consumes an attempt from the budget
as a normal backoff retry. -/
theorem connect_noserver_with_wf_free_retry (env : Env) (w : String)
    (p : Int) (m : String) (conn : Nat → ConnOutcome) (discover : Nat → Int)
    (fuel : Nat) (h0 : conn 0 = ConnOutcome.fail true m)
    (h1 : conn 1 = ConnOutcome.ok) (hfuel : 2 ≤ fuel) :
    connectWithReconnects env (some w) (some p) conn discover fuel =
      some ⟨Except.ok (), 2, 0, [], some (discover 0)⟩ := by
  obtain ⟨f, rfl⟩ : ∃ f, fuel = f + 2 := ⟨fuel - 2, by omega⟩
  show connectLoop env (some w) conn discover (f + 1 + 1) 0 0 0 p (some p) [] =
    some ⟨Except.ok (), 2, 0, [], some (discover 0)⟩
  simp [connectLoop, h0, h1]

/-- Witness for C3 (amended): a concrete run with retry limit 0, cached port
1234, workspaceFolder present, one ECONNRESET-classified failure, then a
successful connect on the re-discovered port 4321. -/
theorem connect_noserver_with_wf_free_retry_witness :
    connectWithReconnects ⟨"localhost", 60100, "/sse", 0, LogLevel.info⟩
        (some "/workspace") (some 1234)
        (fun i => if i == 0 then ConnOutcome.fail true "read ECONNRESET"
                  else ConnOutcome.ok)
        (fun _ => 4321) 5 =
      some ⟨Except.ok (), 2, 0, [], some 4321⟩ :=
  connect_noserver_with_wf_free_retry
    ⟨"localhost", 60100, "/sse", 0, LogLevel.info⟩ "/workspace" 1234
    "read ECONNRESET"
    (fun i => if i == 0 then ConnOutcome.fail true "read ECONNRESET"
              else ConnOutcome.ok)
    (fun _ => 4321) 5 rfl rfl (by decide)

end VscMcp
